import Mathlib

/-!
Verification development for the image_trend_monetizer repository.

The repository implements a photo-edit request workflow:
a backend (src/backend/app.py, src/backend/database.py) that accepts
submissions, stores two input images in an S3-compatible object store,
keeps one `requests` row per submission in PostgreSQL, and sends a
completion email; and a manager desktop UI (src/ui/manager_ui.py) that
uploads edited images, marks requests ready for email, and triggers the
email endpoint.

This file is a shallow embedding of the request-lifecycle logic:
the database rows become a list of records, the object store a list of
keys, fallible external calls (S3 upload/fetch, SMTP send, DB write)
are driven by explicit boolean effect oracles, and timestamps are
explicit natural-number parameters standing for CURRENT_TIMESTAMP.
UUID generation (uuid.uuid4) is modelled by a fresh-id counter.
-/

namespace ImageTrend

/-- The status strings stored in the `requests.status` column, per the
schema comment in src/backend/database.py:
`pending, processing, pending_email, completed, error`. -/
inductive Status
  | pending
  | processing
  | pending_email
  | completed
  | error
deriving DecidableEq, Repr

/-- One row of the `requests` table (src/backend/database.py, init_db).
`id` models the uuid4 string primary key; timestamps are naturals. -/
structure RequestRecord where
  id : Nat
  email : String
  description : String
  original_image_path : String
  payment_proof_path : String
  edited_image_path : Option String
  status : Status
  submitted_at : Nat
  completed_at : Option Nat
deriving DecidableEq, Repr

/-- Python truthiness of an optional string (`if not x` treats both
`None` and the empty string as falsy). -/
def truthyOpt : Option String → Bool
  | none => false
  | some s => s ≠ ""

/-- `ALLOWED_EXTENSIONS` from src/backend/app.py line 22. -/
def ALLOWED_EXTENSIONS : List String := ["png", "jpg", "jpeg", "gif", "webp"]

/-- The characters after the last `.` of a character list, `none` when
it has no dot. -/
def afterLastDot : List Char → Option (List Char)
  | [] => none
  | x :: xs =>
      match afterLastDot xs with
      | some t => some t
      | none => if x = '.' then some xs else none

/-- The text after the last dot: `filename.rsplit(".", 1)[1]` for a
filename containing a dot, and `""` otherwise (the callers only use it
on names with a dot). -/
def lastExtension (filename : String) : String :=
  match afterLastDot filename.data with
  | some t => String.mk t
  | none => ""

/-- ASCII lower-casing of one character, as `str.lower` acts on the
ASCII extension strings compared here. -/
def charLower (c : Char) : Char :=
  if 65 ≤ c.toNat ∧ c.toNat ≤ 90 then Char.ofNat (c.toNat + 32) else c

/-- `str.lower` on the (ASCII) extension strings involved. -/
def strLower (s : String) : String :=
  String.mk (s.data.map charLower)

/-- `allowed_file` from src/backend/app.py lines 98-100:
`"." in filename and filename.rsplit(".", 1)[1].lower() in ALLOWED_EXTENSIONS`. -/
def allowed_file (filename : String) : Bool :=
  filename.data.contains '.'
    && ALLOWED_EXTENSIONS.contains (strLower (lastExtension filename))

/-- `database.add_request` (src/backend/database.py lines 69-75): INSERT of
(id, email, description, original_image_path, payment_proof_path); the
remaining columns take their schema defaults: status `pending`,
`edited_image_path` NULL, `completed_at` NULL, `submitted_at` now. -/
def add_request (db : List RequestRecord) (req_id : Nat) (email description
    original_path proof_path : String) (now : Nat) : List RequestRecord :=
  { id := req_id, email := email, description := description,
    original_image_path := original_path, payment_proof_path := proof_path,
    edited_image_path := none, status := Status.pending,
    submitted_at := now, completed_at := none } :: db

/-- `database.get_request_by_id` (src/backend/database.py lines 109-115):
SELECT * FROM requests WHERE id = req_id, first matching row or None. -/
def get_request_by_id (db : List RequestRecord) (req_id : Nat) :
    Option RequestRecord :=
  db.find? (fun r => r.id == req_id)

/-- Whether the UPDATE's WHERE clause matches a row (`cur.rowcount > 0`). -/
def hasRequest (db : List RequestRecord) (req_id : Nat) : Bool :=
  db.any (fun r => r.id == req_id)

/-- The SET clause of `database.update_request_status` applied to one
row: for status `completed` or `pending_email` it sets
`status, edited_image_path = edited_path, completed_at = CURRENT_TIMESTAMP`;
for every other status it sets only `status`. -/
def statusRowSet (status : Status) (edited_path : Option String) (now : Nat)
    (r : RequestRecord) : RequestRecord :=
  if status = Status.completed ∨ status = Status.pending_email then
    { r with status := status, edited_image_path := edited_path,
             completed_at := some now }
  else
    { r with status := status }

/-- `database.update_request_status` (src/backend/database.py lines 85-107):
applies `statusRowSet` to the row matched by the WHERE clause and
returns the updated table together with `cur.rowcount > 0`. -/
def update_request_status (db : List RequestRecord) (req_id : Nat)
    (status : Status) (edited_path : Option String) (now : Nat) :
    List RequestRecord × Bool :=
  (db.map fun r => if r.id = req_id then statusRowSet status edited_path now r else r,
   hasRequest db req_id)

/-- `update_db_request` (src/ui/manager_ui.py lines 127-159). Builds the
SET clause from the optional arguments: status when given, edited path
when given, and `completed_at = CURRENT_TIMESTAMP` exactly when the new
status is `completed` or `pending_email`. With nothing to update it
returns False without touching the table; otherwise it returns
`cur.rowcount > 0`. This function is the per-row SET clause. -/
def dbRowSet (status : Option Status) (edited_path_relative : Option String)
    (now : Nat) (r : RequestRecord) : RequestRecord :=
  let r1 := match status with
    | some s => { r with status := s }
    | none => r
  let r2 := match edited_path_relative with
    | some p => { r1 with edited_image_path := some p }
    | none => r1
  if status = some Status.completed ∨ status = some Status.pending_email then
    { r2 with completed_at := some now }
  else r2

/-- `update_db_request` (src/ui/manager_ui.py lines 127-159): with
nothing to update it returns False without touching the table;
otherwise it applies `dbRowSet` to the matched row and returns
`cur.rowcount > 0`. -/
def update_db_request (db : List RequestRecord) (req_id : Nat)
    (status : Option Status) (edited_path_relative : Option String)
    (now : Nat) : List RequestRecord × Bool :=
  if status = none ∧ edited_path_relative = none then
    (db, false)
  else
    (db.map fun r =>
       if r.id = req_id then dbRowSet status edited_path_relative now r else r,
     hasRequest db req_id)

/-- The persistent state the backend and the manager UI operate on:
the `requests` table, the set of object keys present in the MinIO
bucket, and the supply of fresh uuid4 values (modelled as a counter). -/
structure SystemState where
  db : List RequestRecord
  store : List String
  nextId : Nat
deriving DecidableEq, Repr

/-- Put an object into the bucket (`upload_fileobj` / `upload_file`);
uploading to an existing key overwrites it. -/
def storePut (store : List String) (key : String) : List String :=
  if store.contains key then store else key :: store

/-- The multipart form handed to POST /submit: `email`, optional
`description`, and the two file parts, each `none` when the part is
absent and otherwise carrying its filename. -/
structure SubmitForm where
  email : String
  description : String
  image : Option String
  payment_proof : Option String
deriving DecidableEq, Repr

/-- The distinct responses of `submit_request`
(src/backend/app.py lines 114-197). The first four are the 400-level
validation responses; the last two are the 500 responses of the
`ClientError` and generic `Exception` handlers. -/
inductive SubmitOutcome
  | emailRequired
  | originalImageRequired
  | paymentProofRequired
  | invalidFileType
  | created (request_id : Nat)
  | storageUploadFailed
  | internalFailure
deriving DecidableEq, Repr

/-- Whether a submit response is one of the 400 validation responses. -/
def SubmitOutcome.isValidationFailure : SubmitOutcome → Bool
  | SubmitOutcome.emailRequired => true
  | SubmitOutcome.originalImageRequired => true
  | SubmitOutcome.paymentProofRequired => true
  | SubmitOutcome.invalidFileType => true
  | _ => false

/-- Effect oracle for the three external calls `submit_request` makes:
the two S3 uploads and the database INSERT. `false` means the call
raises (ClientError for the uploads, a psycopg2 error for the INSERT). -/
structure SubmitEffects where
  upload1Ok : Bool
  upload2Ok : Bool
  dbInsertOk : Bool
deriving DecidableEq, Repr

/-- `submit_request` (src/backend/app.py lines 114-197), assuming the S3
client is configured. Validation: email present and non-empty, both file
parts present, both filenames pass `allowed_file`. Then it draws a fresh
uuid, derives the two object keys, uploads the original, uploads the
proof, and INSERTs the row.

Failure handling mirrors the source exactly:
a `ClientError` from an upload triggers the cleanup loop over
`uploaded_keys` (so a failure on the second upload deletes the first
key); a non-ClientError failure (the database INSERT) reaches the
generic handler, whose cleanup consists only of a log line and the
comment `# Implement cleanup as above` — no object is deleted. -/
def submit_request (st : SystemState) (form : SubmitForm)
    (eff : SubmitEffects) (now : Nat) : SubmitOutcome × SystemState :=
  if form.email = "" then
    (SubmitOutcome.emailRequired, st)
  else
    match form.image with
    | none => (SubmitOutcome.originalImageRequired, st)
    | some imageName =>
      match form.payment_proof with
      | none => (SubmitOutcome.paymentProofRequired, st)
      | some proofName =>
        if ¬ (allowed_file imageName && allowed_file proofName) then
          (SubmitOutcome.invalidFileType, st)
        else
          let request_id := st.nextId
          let image_ext := strLower (lastExtension imageName)
          let proof_ext := strLower (lastExtension proofName)
          let image_object_key :=
            "original/" ++ toString request_id ++ "_original." ++ image_ext
          let proof_object_key :=
            "proof/" ++ toString request_id ++ "_proof." ++ proof_ext
          if ¬ eff.upload1Ok then
            -- ClientError on the first upload: uploaded_keys is empty,
            -- the cleanup loop deletes nothing.
            (SubmitOutcome.storageUploadFailed, { st with nextId := st.nextId + 1 })
          else
            let store1 := storePut st.store image_object_key
            if ¬ eff.upload2Ok then
              -- ClientError on the second upload: cleanup deletes the
              -- already-uploaded original key.
              (SubmitOutcome.storageUploadFailed,
               { st with store := store1.erase image_object_key,
                         nextId := st.nextId + 1 })
            else
              let store2 := storePut store1 proof_object_key
              if ¬ eff.dbInsertOk then
                -- Generic Exception handler: logs a cleanup warning but
                -- performs no deletion; both uploaded objects remain.
                (SubmitOutcome.internalFailure,
                 { st with store := store2, nextId := st.nextId + 1 })
              else
                (SubmitOutcome.created request_id,
                 { db := add_request st.db request_id form.email
                           form.description image_object_key proof_object_key now,
                   store := store2,
                   nextId := st.nextId + 1 })

/-- Logger severities used by the backend (`app.logger.info/warning/error`). -/
inductive Severity
  | info
  | warning
  | error
deriving DecidableEq, Repr

/-- The logger calls inside `send_completion_email`
(src/backend/app.py lines 235-320), one constructor per call site. -/
inductive LogMsg
  | receivedRequest
  | requestNotFound
  | nonPendingEmailAttempt
  | missingRecipient
  | missingEditedKey
  | fetchingImage
  | attachedFile
  | fetchFailedMsg
  | attemptingSend
  | sentSuccessfully
  | statusUpdated
  | sentButStatusUpdateFailed
  | sendFailure
deriving DecidableEq, Repr

/-- The distinct HTTP responses of `send_completion_email`. `sendFailed`
is the single 500 response of the final generic handler, produced both
when `mail.send` raises and when the later status UPDATE raises. -/
inductive EmailOutcome
  | notFound
  | preconditionFailed (current : Status)
  | missingRecipient
  | missingEditedKey
  | imageNotFound
  | fetchFailed
  | sendFailed
  | sentOk
deriving DecidableEq, Repr

/-- Effect oracle for the external calls of `send_completion_email`:
S3 `get_object` transport (a missing key is determined by the store
contents instead), `mail.send`, and the status-UPDATE round trip. -/
structure EmailEffects where
  fetchOk : Bool
  sendOk : Bool
  dbUpdateOk : Bool
deriving DecidableEq, Repr

/-- The observable result of one `send_completion_email` call: the HTTP
response, the resulting state, how many emails were dispatched, and the
log lines written. -/
structure EmailRun where
  outcome : EmailOutcome
  state : SystemState
  emailsSent : Nat
  log : List (Severity × LogMsg)
deriving DecidableEq, Repr

/-- `send_completion_email` (src/backend/app.py lines 235-320), assuming
the S3 client is configured. Checks, in source order: the record exists;
its status is `pending_email`; it has a recipient email; it has an
edited-image key. Then it fetches the object, dispatches the email, and
only after a successful dispatch runs
`update_request_status(request_id, "completed", edited_path=key)`.
A dispatch failure leaves the table untouched and returns the 500
send-failure response; a raising status UPDATE after a successful
dispatch is caught by the same generic handler, which logs and returns
the identical send-failure response; a status UPDATE that affects no
rows is logged at warning severity and the call still returns 200. -/
def send_completion_email (st : SystemState) (request_id : Nat)
    (eff : EmailEffects) (now : Nat) : EmailRun :=
  let log0 : List (Severity × LogMsg) := [(Severity.info, LogMsg.receivedRequest)]
  match get_request_by_id st.db request_id with
  | none =>
      { outcome := EmailOutcome.notFound, state := st, emailsSent := 0,
        log := log0 ++ [(Severity.error, LogMsg.requestNotFound)] }
  | some request_data =>
      if request_data.status ≠ Status.pending_email then
        { outcome := EmailOutcome.preconditionFailed request_data.status,
          state := st, emailsSent := 0,
          log := log0 ++ [(Severity.warning, LogMsg.nonPendingEmailAttempt)] }
      else if request_data.email = "" then
        { outcome := EmailOutcome.missingRecipient, state := st, emailsSent := 0,
          log := log0 ++ [(Severity.error, LogMsg.missingRecipient)] }
      else
        match request_data.edited_image_path with
        | none =>
            { outcome := EmailOutcome.missingEditedKey, state := st,
              emailsSent := 0,
              log := log0 ++ [(Severity.error, LogMsg.missingEditedKey)] }
        | some edited_object_key =>
          if edited_object_key = "" then
            { outcome := EmailOutcome.missingEditedKey, state := st,
              emailsSent := 0,
              log := log0 ++ [(Severity.error, LogMsg.missingEditedKey)] }
          else if ¬ st.store.contains edited_object_key then
            -- get_object raises ClientError with code NoSuchKey.
            { outcome := EmailOutcome.imageNotFound, state := st, emailsSent := 0,
              log := log0 ++ [(Severity.info, LogMsg.fetchingImage),
                              (Severity.error, LogMsg.fetchFailedMsg)] }
          else if ¬ eff.fetchOk then
            -- get_object raises some other ClientError.
            { outcome := EmailOutcome.fetchFailed, state := st, emailsSent := 0,
              log := log0 ++ [(Severity.info, LogMsg.fetchingImage),
                              (Severity.error, LogMsg.fetchFailedMsg)] }
          else
            let log1 := log0 ++ [(Severity.info, LogMsg.fetchingImage),
                                 (Severity.info, LogMsg.attachedFile),
                                 (Severity.info, LogMsg.attemptingSend)]
            if ¬ eff.sendOk then
              -- mail.send raised: no dispatch, generic 500 response.
              { outcome := EmailOutcome.sendFailed, state := st, emailsSent := 0,
                log := log1 ++ [(Severity.error, LogMsg.sendFailure)] }
            else if ¬ eff.dbUpdateOk then
              -- The email went out, then update_request_status raised;
              -- the generic handler returns the same send-failure 500.
              { outcome := EmailOutcome.sendFailed, state := st, emailsSent := 1,
                log := log1 ++ [(Severity.info, LogMsg.sentSuccessfully),
                                (Severity.error, LogMsg.sendFailure)] }
            else
              let res := update_request_status st.db request_id
                           Status.completed (some edited_object_key) now
              if res.2 then
                { outcome := EmailOutcome.sentOk,
                  state := { st with db := res.1 }, emailsSent := 1,
                  log := log1 ++ [(Severity.info, LogMsg.sentSuccessfully),
                                  (Severity.info, LogMsg.statusUpdated)] }
              else
                { outcome := EmailOutcome.sentOk,
                  state := { st with db := res.1 }, emailsSent := 1,
                  log := log1 ++ [(Severity.info, LogMsg.sentSuccessfully),
                                  (Severity.warning, LogMsg.sentButStatusUpdateFailed)] }

/-- The outcomes of the manager's `mark_ready_for_email` handler
(src/ui/manager_ui.py lines 847-869), one constructor per message box /
exit path, with the user confirming the dialog. -/
inductive MarkReadyOutcome
  | missingEditedPath
  | alreadyProcessed (current : Status)
  | dbUpdateFailed
  | statusUpdated
deriving DecidableEq, Repr

/-- `mark_ready_for_email` (src/ui/manager_ui.py lines 847-869), acting
on the selected row snapshot `data` with the confirmation dialog
answered Yes. It refuses when the snapshot has no truthy
`edited_image_path`, refuses when the snapshot status is already
`pending_email` or `completed` (the source also lists the legacy string
`email_sent`, which no stored status of this revision can equal), and
otherwise runs `update_db_request(id, status="pending_email")`,
reporting a database error when that affects no row. -/
def mark_ready_for_email (db : List RequestRecord) (data : RequestRecord)
    (now : Nat) : MarkReadyOutcome × List RequestRecord :=
  if ¬ truthyOpt data.edited_image_path then
    (MarkReadyOutcome.missingEditedPath, db)
  else if data.status = Status.pending_email ∨ data.status = Status.completed then
    (MarkReadyOutcome.alreadyProcessed data.status, db)
  else
    let res := update_db_request db data.id (some Status.pending_email) none now
    if res.2 then (MarkReadyOutcome.statusUpdated, res.1)
    else (MarkReadyOutcome.dbUpdateFailed, res.1)

/-- The outcomes of the manager's `upload_edited_image` handler
(src/ui/manager_ui.py lines 788-843). -/
inductive UploadOutcome
  | cancelled
  | minioUploadFailed
  | uploadedButDbUpdateFailed (object_key : String)
  | uploadedAndDbUpdated (object_key : String)
deriving DecidableEq, Repr

/-- `os.path.splitext(fileName)[1]` for the names the image file dialog
produces (a basename with characters before its last dot): the last
dot-suffix including the dot, empty when the name has no dot. -/
def splitextExt (fileName : String) : String :=
  if fileName.data.contains '.' then "." ++ lastExtension fileName else ""

/-- The MinIO key `upload_edited_image` derives for the edited image:
`posixpath.join("edited", f"{request_id}_edited{source_ext}")` with
`source_ext` the lower-cased extension of the chosen file, defaulting
to `.png` when the name has none. -/
def editedObjectKey (request_id : Nat) (fileName : String) : String :=
  let source_ext0 := strLower (splitextExt fileName)
  let source_ext := if source_ext0 = "" then ".png" else source_ext0
  "edited/" ++ toString request_id ++ "_edited" ++ source_ext

/-- `upload_edited_image` (src/ui/manager_ui.py lines 788-843), acting on
the selected request `data`; `fileName` is the file-dialog result
(`none` = cancelled) and `uploadOk` whether `s3_client.upload_file`
succeeds. The handler performs no status check of any kind: it derives
the `edited/{id}_edited{ext}` key, uploads, and then runs
`update_db_request(id, edited_path_relative=object_key)` — which sets
only `edited_image_path`, leaving `status` and `completed_at` alone.
A commented-out block (lines 831-836) would delete the uploaded object
when the DB update fails, but it is inactive: the object stays. -/
def upload_edited_image (st : SystemState) (data : RequestRecord)
    (fileName : Option String) (uploadOk : Bool) (now : Nat) :
    UploadOutcome × SystemState :=
  match fileName with
  | none => (UploadOutcome.cancelled, st)
  | some f =>
      let object_key := editedObjectKey data.id f
      if ¬ uploadOk then
        (UploadOutcome.minioUploadFailed, st)
      else
        let store2 := storePut st.store object_key
        let res := update_db_request st.db data.id none (some object_key) now
        if res.2 then
          (UploadOutcome.uploadedAndDbUpdated object_key,
           { st with db := res.1, store := store2 })
        else
          (UploadOutcome.uploadedButDbUpdateFailed object_key,
           { st with db := res.1, store := store2 })

/-- The three action-button enablings computed by
`enable_detail_buttons` (src/ui/manager_ui.py lines 688-713) that drive
the lifecycle operations. -/
structure DetailButtons where
  upload_edited : Bool
  mark_complete : Bool
  send_email : Bool
deriving DecidableEq, Repr

/-- `enable_detail_buttons` (src/ui/manager_ui.py lines 688-713) with the
S3 client available: `can_upload = True` unconditionally (the source
comment reads `Allow upload/overwrite for testing`);
`can_mark_ready` requires a status outside pending_email/completed plus
a truthy edited path; `can_send_email` requires status `pending_email`
plus truthy email and edited path. -/
def enable_detail_buttons (data : RequestRecord) : DetailButtons :=
  let has_edited := truthyOpt data.edited_image_path
  let has_email := data.email ≠ ""
  { upload_edited := true,
    mark_complete :=
      (data.status ≠ Status.pending_email && data.status ≠ Status.completed)
        && has_edited,
    send_email := (data.status = Status.pending_email) && has_email && has_edited }

/-! ## Helper lemmas -/

lemma get_id {db : List RequestRecord} {i : Nat} {r : RequestRecord}
    (h : get_request_by_id db i = some r) : r.id = i := by
  have h2 := List.find?_some h
  simpa using h2

lemma get_mem {db : List RequestRecord} {i : Nat} {r : RequestRecord}
    (h : get_request_by_id db i = some r) : r ∈ db :=
  List.mem_of_find?_eq_some h

lemma hasRequest_of_get {db : List RequestRecord} {i : Nat} {r : RequestRecord}
    (h : get_request_by_id db i = some r) : hasRequest db i = true := by
  have h2 := List.find?_some h
  exact List.any_eq_true.mpr ⟨r, get_mem h, h2⟩

lemma hasRequest_false_of_not_mem {db : List RequestRecord} {i : Nat}
    (h : ∀ r ∈ db, r.id ≠ i) : hasRequest db i = false := by
  unfold hasRequest
  induction db with
  | nil => rfl
  | cons a l ih =>
      simp only [List.any_cons, Bool.or_eq_false_iff]
      refine ⟨by simpa using h a (List.mem_cons_self a l), ?_⟩
      exact ih fun r hr => h r (List.mem_cons_of_mem a hr)

/-- A row update that touches only the row matched by the WHERE clause
commutes with looking up that row, provided it preserves the id. -/
lemma find?_map_update (db : List RequestRecord) (i : Nat)
    (g : RequestRecord → RequestRecord) (hg : ∀ r, (g r).id = r.id) :
    get_request_by_id (db.map fun r => if r.id = i then g r else r) i
      = (get_request_by_id db i).map fun r => if r.id = i then g r else r := by
  unfold get_request_by_id
  have hp : ((fun r : RequestRecord => r.id == i) ∘ (fun r => if r.id = i then g r else r))
      = (fun r : RequestRecord => r.id == i) := by
    funext r
    by_cases h : r.id = i <;> simp [Function.comp, h, hg]
  rw [List.find?_map, hp]

/-- An UPDATE whose WHERE clause matches no row leaves the table as it was. -/
lemma map_update_self (db : List RequestRecord) (i : Nat)
    (g : RequestRecord → RequestRecord) (h : hasRequest db i = false) :
    (db.map fun r => if r.id = i then g r else r) = db := by
  induction db with
  | nil => rfl
  | cons a l ih =>
      unfold hasRequest at h ih
      simp only [List.any_cons, Bool.or_eq_false_iff] at h
      simp only [List.map_cons, ih h.2]
      have ha : ¬ a.id = i := by simpa using h.1
      simp [ha]

lemma statusRowSet_id (status : Status) (p : Option String) (now : Nat)
    (r : RequestRecord) : (statusRowSet status p now r).id = r.id := by
  unfold statusRowSet
  by_cases hc : status = Status.completed ∨ status = Status.pending_email <;> simp [hc]

lemma dbRowSet_id (status : Option Status) (p : Option String) (now : Nat)
    (r : RequestRecord) : (dbRowSet status p now r).id = r.id := by
  unfold dbRowSet
  cases status <;> cases p <;> dsimp <;> split <;> rfl

/-- Looking up the matched row after `update_request_status`. -/
lemma update_request_status_get {db : List RequestRecord} {i : Nat} {r : RequestRecord}
    (status : Status) (p : Option String) (now : Nat)
    (h : get_request_by_id db i = some r) :
    get_request_by_id (update_request_status db i status p now).1 i
      = some (statusRowSet status p now r) := by
  have hid := get_id h
  show get_request_by_id
      (db.map fun x => if x.id = i then statusRowSet status p now x else x) i = _
  rw [find?_map_update db i _ (statusRowSet_id status p now)]
  rw [h]
  simp [hid]

/-- Looking up the matched row after a non-trivial `update_db_request`. -/
lemma update_db_request_get {db : List RequestRecord} {i : Nat} {r : RequestRecord}
    (status : Option Status) (p : Option String) (now : Nat)
    (hne : ¬ (status = none ∧ p = none))
    (h : get_request_by_id db i = some r) :
    get_request_by_id (update_db_request db i status p now).1 i
      = some (dbRowSet status p now r) := by
  have hid := get_id h
  unfold update_db_request
  rw [if_neg hne]
  show get_request_by_id
      (db.map fun x => if x.id = i then dbRowSet status p now x else x) i = _
  rw [find?_map_update db i _ (dbRowSet_id status p now)]
  rw [h]
  simp [hid]

/-! ## Sample data for concrete instantiations -/

/-- A freshly submitted request row (status `pending`, no edited image,
no completion time), as `add_request` creates it. -/
def samplePending : RequestRecord :=
  { id := 0, email := "a@b.com", description := "",
    original_image_path := "original/0_original.png",
    payment_proof_path := "proof/0_proof.jpg",
    edited_image_path := none, status := Status.pending,
    submitted_at := 1, completed_at := none }

/-- The same row after the operator has attached an edited image. -/
def sampleEdited : RequestRecord :=
  { samplePending with edited_image_path := some "edited/0_edited.png" }

/-- The row ready for email dispatch. -/
def sampleReady : RequestRecord :=
  { sampleEdited with status := Status.pending_email }

/-- A system state whose store holds all three objects of the sample row. -/
def sampleReadyState : SystemState :=
  { db := [sampleReady],
    store := ["original/0_original.png", "proof/0_proof.jpg",
              "edited/0_edited.png"],
    nextId := 1 }

/-- A request already completed, still holding an edited-image key. -/
def sampleCompleted : RequestRecord :=
  { samplePending with status := Status.completed,
                       edited_image_path := some "edited/0_edited.gif" }

/-- A system state containing only the completed sample request. -/
def sampleCompletedState : SystemState :=
  { db := [sampleCompleted], store := ["edited/0_edited.gif"], nextId := 1 }

/-! ## Claim theorems -/

/-- C1, counterexample: the claim says `completed_at` is set only on the
transition into `completed` and never while the record is in an earlier
state such as `pending_email`. But `database.update_request_status`
stamps `completed_at = CURRENT_TIMESTAMP` already on the write that
moves the sample pending record to `pending_email`: afterwards the row
is in state `pending_email` with `completed_at` populated. -/
theorem c1_counterexample :
    (get_request_by_id
        (update_request_status [sampleEdited] 0 Status.pending_email
          (some "edited/0_edited.png") 7).1 0).map
      (fun r => (r.status, r.completed_at))
      = some (Status.pending_email, some 7) := by
  rfl

/-- C1, amended: both lifecycle updaters — `database.update_request_status`
and the manager's `update_db_request` — stamp `completed_at` with the
current time on every status write whose new status is `pending_email`
or `completed`, and leave `completed_at` unchanged on writes of any
other status. So `completed_at` is first set when the record enters
`pending_email`, before the email is sent, not only on `completed`. -/
theorem c1_completed_at_stamp (db : List RequestRecord) (i : Nat) (now : Nat)
    (r : RequestRecord) (h : get_request_by_id db i = some r)
    (s : Status) (p : Option String) :
    ((s = Status.pending_email ∨ s = Status.completed) →
      ((get_request_by_id (update_request_status db i s p now).1 i).map
          (fun x => x.completed_at) = some (some now)
       ∧ (get_request_by_id (update_db_request db i (some s) p now).1 i).map
          (fun x => x.completed_at) = some (some now)))
    ∧ (¬ (s = Status.pending_email ∨ s = Status.completed) →
      ((get_request_by_id (update_request_status db i s p now).1 i).map
          (fun x => x.completed_at) = some r.completed_at
       ∧ (get_request_by_id (update_db_request db i (some s) p now).1 i).map
          (fun x => x.completed_at) = some r.completed_at)) := by
  have hne : ¬ ((some s : Option Status) = none ∧ p = none) := by simp
  constructor
  · intro hs
    constructor
    · rw [update_request_status_get s p now h]
      unfold statusRowSet
      rcases hs with h1 | h1 <;> simp [h1]
    · rw [update_db_request_get (some s) p now hne h]
      unfold dbRowSet
      rcases hs with h1 | h1 <;> cases p <;> simp [h1]
  · intro hs
    constructor
    · rw [update_request_status_get s p now h]
      unfold statusRowSet
      have : ¬ (s = Status.completed ∨ s = Status.pending_email) := by tauto
      simp [this]
    · rw [update_db_request_get (some s) p now hne h]
      unfold dbRowSet
      have h2 : ¬ (s = Status.completed ∨ s = Status.pending_email) := by tauto
      cases p <;> simp [h2]

/-- C1, witness for the amended theorem at a concrete input: updating the
sample record to `pending_email` stamps `completed_at` in both updaters,
and updating it to `processing` leaves `completed_at` untouched. -/
theorem c1_completed_at_stamp_witness :
    (get_request_by_id [sampleEdited] 0 = some sampleEdited)
    ∧ ((Status.pending_email = Status.pending_email ∨
        Status.pending_email = Status.completed) →
      ((get_request_by_id (update_request_status [sampleEdited] 0
            Status.pending_email none 7).1 0).map
          (fun x => x.completed_at) = some (some 7)
       ∧ (get_request_by_id (update_db_request [sampleEdited] 0
            (some Status.pending_email) none 7).1 0).map
          (fun x => x.completed_at) = some (some 7))) := by
  refine ⟨rfl, ?_⟩
  exact (c1_completed_at_stamp [sampleEdited] 0 7 sampleEdited rfl
    Status.pending_email none).1

/-- C10: for a status write of `pending_email` or `completed`,
`database.update_request_status` unconditionally overwrites the stored
`edited_image_path` with its `edited_path` argument (and stamps
`completed_at`); with the argument omitted (defaulting to None) a
previously stored path is replaced by NULL. -/
theorem c10_update_overwrites_edited_path (db : List RequestRecord) (i : Nat)
    (status : Status) (p : Option String) (now : Nat) (r : RequestRecord)
    (hst : status = Status.pending_email ∨ status = Status.completed)
    (h : get_request_by_id db i = some r) :
    get_request_by_id (update_request_status db i status p now).1 i
      = some { r with status := status, edited_image_path := p, completed_at := some now } := by
  rw [update_request_status_get status p now h]
  unfold statusRowSet
  rcases hst with h1 | h1 <;> simp [h1]

/-- C10, witness: marking the sample row (which stores an edited path)
as `pending_email` without passing `edited_path` nulls the stored path. -/
theorem c10_update_overwrites_edited_path_witness :
    (Status.pending_email = Status.pending_email ∨
     Status.pending_email = Status.completed)
    ∧ (get_request_by_id [sampleEdited] 0 = some sampleEdited)
    ∧ get_request_by_id (update_request_status [sampleEdited] 0
         Status.pending_email none 7).1 0
      = some { sampleEdited with status := Status.pending_email, edited_image_path := none, completed_at := some 7 } :=
  ⟨Or.inl rfl, rfl,
   c10_update_overwrites_edited_path [sampleEdited] 0 Status.pending_email
     none 7 sampleEdited (Or.inl rfl) rfl⟩

/-- C5: `mark_ready_for_email` fails without touching the table when the
selected row has no (truthy) edited image path; fails when its status
is already `pending_email` or `completed`; fails (as a reported
database-update failure, the UI's rendering of an unknown id) when no
row with the id exists; and otherwise succeeds, the stored row becoming
`pending_email`. -/
theorem c5_mark_ready_contract (db : List RequestRecord) (data : RequestRecord)
    (now : Nat) :
    (truthyOpt data.edited_image_path = false →
       mark_ready_for_email db data now = (MarkReadyOutcome.missingEditedPath, db))
    ∧ (truthyOpt data.edited_image_path = true →
       (data.status = Status.pending_email ∨ data.status = Status.completed) →
       mark_ready_for_email db data now
         = (MarkReadyOutcome.alreadyProcessed data.status, db))
    ∧ (truthyOpt data.edited_image_path = true →
       ¬ (data.status = Status.pending_email ∨ data.status = Status.completed) →
       (∀ r ∈ db, r.id ≠ data.id) →
       mark_ready_for_email db data now = (MarkReadyOutcome.dbUpdateFailed, db))
    ∧ (truthyOpt data.edited_image_path = true →
       ¬ (data.status = Status.pending_email ∨ data.status = Status.completed) →
       ∀ r, get_request_by_id db data.id = some r →
         (mark_ready_for_email db data now).1 = MarkReadyOutcome.statusUpdated
         ∧ get_request_by_id (mark_ready_for_email db data now).2 data.id
             = some { r with status := Status.pending_email, completed_at := some now }) := by
  have hne : ¬ ((some Status.pending_email : Option Status) = none
      ∧ (none : Option String) = none) := by simp
  refine ⟨?_, ?_, ?_, ?_⟩
  · intro ht
    unfold mark_ready_for_email
    simp [ht]
  · intro ht hs
    unfold mark_ready_for_email
    simp [ht, hs]
  · intro ht hs hmem
    have hhr : hasRequest db data.id = false := hasRequest_false_of_not_mem hmem
    unfold mark_ready_for_email update_db_request
    rw [if_neg (by simp [ht]), if_neg hs, if_neg hne]
    simp [hhr, map_update_self db data.id _ hhr]
  · intro ht hs r hr
    have hhr : hasRequest db data.id = true := hasRequest_of_get hr
    have h2 : (update_db_request db data.id (some Status.pending_email) none now).2
        = true := by
      unfold update_db_request
      rw [if_neg hne]
      exact hhr
    have h1 : get_request_by_id
        (update_db_request db data.id (some Status.pending_email) none now).1 data.id
        = some { r with status := Status.pending_email, completed_at := some now } := by
      rw [update_db_request_get (some Status.pending_email) none now hne hr]
      unfold dbRowSet
      simp
    unfold mark_ready_for_email
    rw [if_neg (by simp [ht]), if_neg hs]
    simp [h2, h1]

/-- C5, witness: on the sample row with an edited image and status
`pending`, the operation succeeds and the stored row becomes
`pending_email`. -/
theorem c5_mark_ready_contract_witness :
    truthyOpt sampleEdited.edited_image_path = true
    ∧ ¬ (sampleEdited.status = Status.pending_email
         ∨ sampleEdited.status = Status.completed)
    ∧ get_request_by_id [sampleEdited] sampleEdited.id = some sampleEdited
    ∧ (mark_ready_for_email [sampleEdited] sampleEdited 5).1
        = MarkReadyOutcome.statusUpdated
    ∧ get_request_by_id (mark_ready_for_email [sampleEdited] sampleEdited 5).2
        sampleEdited.id
      = some { sampleEdited with status := Status.pending_email, completed_at := some 5 } := by
  have h := (c5_mark_ready_contract [sampleEdited] sampleEdited 5).2.2.2
    (by decide) (by decide) sampleEdited rfl
  exact ⟨by decide, by decide, rfl, h.1, h.2⟩

/-- C6, counterexample: the claim says uploading a new edited image
fails with `InvalidStateError` once the status is `completed`. But on a
completed sample record `upload_edited_image` succeeds and overwrites
`edited_image_path` (from `edited/0_edited.gif` to the key of the new
upload) while the status is and stays `completed`. -/
theorem c6_counterexample :
    (upload_edited_image sampleCompletedState sampleCompleted
        (some "redo.PNG") true 5).1
      = UploadOutcome.uploadedAndDbUpdated "edited/0_edited.png"
    ∧ (get_request_by_id
        (upload_edited_image sampleCompletedState sampleCompleted
          (some "redo.PNG") true 5).2.db 0).map
        (fun r => (r.status, r.edited_image_path))
      = some (Status.completed, some "edited/0_edited.png") := by
  exact ⟨rfl, rfl⟩

/-- C6, amended: `upload_edited_image` performs no status check at all:
for every stored request — in any state, the terminal `completed`
included — a confirmed upload succeeds and overwrites
`edited_image_path` with the derived key, and the management UI enables
the upload button unconditionally (`can_upload = True`). -/
theorem c6_upload_ignores_status (st : SystemState) (data : RequestRecord)
    (f : String) (now : Nat) (r : RequestRecord)
    (hr : get_request_by_id st.db data.id = some r) :
    (enable_detail_buttons data).upload_edited = true
    ∧ (upload_edited_image st data (some f) true now).1
        = UploadOutcome.uploadedAndDbUpdated (editedObjectKey data.id f)
    ∧ get_request_by_id (upload_edited_image st data (some f) true now).2.db data.id
        = some { r with edited_image_path := some (editedObjectKey data.id f) } := by
  have hne : ¬ ((none : Option Status) = none
      ∧ (some (editedObjectKey data.id f) : Option String) = none) := by simp
  have hhr : hasRequest st.db data.id = true := hasRequest_of_get hr
  have h2 : (update_db_request st.db data.id none
      (some (editedObjectKey data.id f)) now).2 = true := by
    unfold update_db_request
    rw [if_neg hne]
    exact hhr
  have h1 : get_request_by_id (update_db_request st.db data.id none
      (some (editedObjectKey data.id f)) now).1 data.id
      = some { r with edited_image_path := some (editedObjectKey data.id f) } := by
    rw [update_db_request_get none (some (editedObjectKey data.id f)) now hne hr]
    unfold dbRowSet
    simp
  refine ⟨rfl, ?_, ?_⟩ <;>
    · unfold upload_edited_image
      simp [h2, h1]

/-- C6, witness for the amended theorem: the concrete completed record of
the counterexample, re-checked through the general theorem. -/
theorem c6_upload_ignores_status_witness :
    get_request_by_id sampleCompletedState.db sampleCompleted.id
      = some sampleCompleted
    ∧ (upload_edited_image sampleCompletedState sampleCompleted
        (some "fix.jpg") true 6).1
      = UploadOutcome.uploadedAndDbUpdated (editedObjectKey sampleCompleted.id "fix.jpg") := by
  refine ⟨rfl, ?_⟩
  exact (c6_upload_ignores_status sampleCompletedState sampleCompleted
    "fix.jpg" 6 sampleCompleted rfl).2.1

/-- C4: on a request whose status is already `completed`, the email
endpoint answers with the precondition failure, dispatches nothing,
changes nothing, and its whole log is the arrival line plus the
status-warning line — the status check fires before any fetch, email
build, or send is attempted. -/
theorem c4_resend_rejected (st : SystemState) (i : Nat) (eff : EmailEffects)
    (now : Nat) (r : RequestRecord)
    (h : get_request_by_id st.db i = some r)
    (hc : r.status = Status.completed) :
    send_completion_email st i eff now
      = { outcome := EmailOutcome.preconditionFailed Status.completed,
          state := st, emailsSent := 0,
          log := [(Severity.info, LogMsg.receivedRequest),
                  (Severity.warning, LogMsg.nonPendingEmailAttempt)] } := by
  unfold send_completion_email
  rw [h]
  simp [hc]

/-- C4, witness: the completed sample request is rejected concretely. -/
theorem c4_resend_rejected_witness :
    (get_request_by_id sampleCompletedState.db 0 = some sampleCompleted)
    ∧ sampleCompleted.status = Status.completed
    ∧ send_completion_email sampleCompletedState 0
        { fetchOk := true, sendOk := true, dbUpdateOk := true } 9
      = { outcome := EmailOutcome.preconditionFailed Status.completed,
          state := sampleCompletedState, emailsSent := 0,
          log := [(Severity.info, LogMsg.receivedRequest),
                  (Severity.warning, LogMsg.nonPendingEmailAttempt)] } :=
  ⟨rfl, rfl,
   c4_resend_rejected sampleCompletedState 0
     { fetchOk := true, sendOk := true, dbUpdateOk := true } 9
     sampleCompleted rfl rfl⟩

/-- C2: for an existing request, the email endpoint (i) rejects with the
precondition failure, zero dispatches and no state change whenever the
stored status is not `pending_email`; (ii) dispatches exactly one email
whenever it reports success, and only after `mail.send` succeeded;
(iii) leaves everything unchanged with zero dispatches when the
dispatch fails; and (iv) on reported success the stored row has become
`completed` with `completed_at` populated — i.e. the completed state
arises only as a consequence of the successful dispatch. -/
theorem c2_send_notification_contract (st : SystemState) (i : Nat)
    (eff : EmailEffects) (now : Nat) (r : RequestRecord)
    (h : get_request_by_id st.db i = some r) :
    (r.status ≠ Status.pending_email →
       (send_completion_email st i eff now).outcome
           = EmailOutcome.preconditionFailed r.status
       ∧ (send_completion_email st i eff now).emailsSent = 0
       ∧ (send_completion_email st i eff now).state = st)
    ∧ ((send_completion_email st i eff now).outcome = EmailOutcome.sentOk →
       (send_completion_email st i eff now).emailsSent = 1
       ∧ eff.sendOk = true)
    ∧ (eff.sendOk = false →
       (send_completion_email st i eff now).state = st
       ∧ (send_completion_email st i eff now).emailsSent = 0)
    ∧ ((send_completion_email st i eff now).outcome = EmailOutcome.sentOk →
       ∃ k, r.edited_image_path = some k
       ∧ get_request_by_id (send_completion_email st i eff now).state.db i
           = some { r with status := Status.completed, edited_image_path := some k, completed_at := some now }) := by
  unfold send_completion_email
  rw [h]
  by_cases hs : r.status = Status.pending_email
  · by_cases he : r.email = ""
    · simp [hs, he]
    · cases hke : r.edited_image_path with
      | none => simp [hs, he, hke]
      | some k =>
        by_cases hk0 : k = ""
        · simp [hs, he, hke, hk0]
        · by_cases hmem : k ∈ st.store
          · by_cases hf : eff.fetchOk = true
            · by_cases hsend : eff.sendOk = true
              · by_cases hdb : eff.dbUpdateOk = true
                · have hres2 : (update_request_status st.db i Status.completed
                      (some k) now).2 = true := hasRequest_of_get h
                  have hget : get_request_by_id (update_request_status st.db i
                      Status.completed (some k) now).1 i
                      = some { r with status := Status.completed, edited_image_path := some k, completed_at := some now } := by
                    rw [update_request_status_get Status.completed (some k) now h]
                    unfold statusRowSet
                    simp
                  simp [hs, he, hke, hk0, hmem, hf, hsend, hdb, hres2, hget]
                · simp [hs, he, hke, hk0, hmem, hf, hsend, hdb]
              · simp [hs, he, hke, hk0, hmem, hf, hsend]
            · simp [hs, he, hke, hk0, hmem, hf]
          · simp [hs, he, hke, hk0, hmem]
  · simp [hs]

/-- C2, witness: the sample ready request with all effects succeeding:
one dispatch, reported success, and the stored row completed with a
completion time. -/
theorem c2_send_notification_contract_witness :
    (get_request_by_id sampleReadyState.db 0 = some sampleReady)
    ∧ ((send_completion_email sampleReadyState 0
          { fetchOk := true, sendOk := true, dbUpdateOk := true } 9).outcome
        = EmailOutcome.sentOk →
       ∃ k, sampleReady.edited_image_path = some k
       ∧ get_request_by_id (send_completion_email sampleReadyState 0
            { fetchOk := true, sendOk := true, dbUpdateOk := true } 9).state.db 0
           = some { sampleReady with status := Status.completed, edited_image_path := some k, completed_at := some 9 }) :=
  ⟨rfl,
   (c2_send_notification_contract sampleReadyState 0
     { fetchOk := true, sendOk := true, dbUpdateOk := true } 9
     sampleReady rfl).2.2.2⟩

/-- C9, counterexample: the claim says that when the dispatch succeeds
but the status write fails, the inconsistency is logged at error
severity and surfaced to the caller for manual reconciliation. On the
sample ready request with a successful dispatch and a raising status
UPDATE, the endpoint instead returns the same generic send-failure
response as a failed dispatch (telling the caller the email was not
sent, although one was), and the only error-severity log line is the
generic send-failure line — the sent-but-not-updated situation is
recorded nowhere. -/
theorem c9_counterexample :
    send_completion_email sampleReadyState 0
        { fetchOk := true, sendOk := true, dbUpdateOk := false } 9
      = { outcome := EmailOutcome.sendFailed, state := sampleReadyState,
          emailsSent := 1,
          log := [(Severity.info, LogMsg.receivedRequest),
                  (Severity.info, LogMsg.fetchingImage),
                  (Severity.info, LogMsg.attachedFile),
                  (Severity.info, LogMsg.attemptingSend),
                  (Severity.info, LogMsg.sentSuccessfully),
                  (Severity.error, LogMsg.sendFailure)] } := by
  rfl

/-- C9, amended: when the dispatch succeeds but the subsequent status
write raises, the controller performs no further dispatch in that call
and leaves the record unchanged, but it reports the same generic
send-failure error to the caller as a failed dispatch and logs only a
generic send-failure line — it neither logs the
sent-but-status-not-updated inconsistency at error severity nor
surfaces it distinctly for manual reconciliation. -/
theorem c9_update_failure_masked (st : SystemState) (i : Nat)
    (eff : EmailEffects) (now : Nat) (r : RequestRecord) (k : String)
    (h : get_request_by_id st.db i = some r)
    (hs : r.status = Status.pending_email)
    (he : r.email ≠ "")
    (hke : r.edited_image_path = some k)
    (hk0 : k ≠ "")
    (hmem : k ∈ st.store)
    (hf : eff.fetchOk = true)
    (hsend : eff.sendOk = true)
    (hdb : eff.dbUpdateOk = false) :
    send_completion_email st i eff now
      = { outcome := EmailOutcome.sendFailed, state := st, emailsSent := 1,
          log := [(Severity.info, LogMsg.receivedRequest),
                  (Severity.info, LogMsg.fetchingImage),
                  (Severity.info, LogMsg.attachedFile),
                  (Severity.info, LogMsg.attemptingSend),
                  (Severity.info, LogMsg.sentSuccessfully),
                  (Severity.error, LogMsg.sendFailure)] } := by
  unfold send_completion_email
  rw [h]
  simp [hs, he, hke, hk0, hmem, hf, hsend, hdb]

/-- C9, witness for the amended theorem at the concrete sample input. -/
theorem c9_update_failure_masked_witness :
    (get_request_by_id sampleReadyState.db 0 = some sampleReady)
    ∧ sampleReady.status = Status.pending_email
    ∧ sampleReady.email ≠ ""
    ∧ sampleReady.edited_image_path = some "edited/0_edited.png"
    ∧ "edited/0_edited.png" ∈ sampleReadyState.store
    ∧ (send_completion_email sampleReadyState 0
        { fetchOk := true, sendOk := true, dbUpdateOk := false } 9).emailsSent = 1
    ∧ (send_completion_email sampleReadyState 0
        { fetchOk := true, sendOk := true, dbUpdateOk := false } 9).outcome
      = EmailOutcome.sendFailed := by
  have h := c9_update_failure_masked sampleReadyState 0
    { fetchOk := true, sendOk := true, dbUpdateOk := false } 9
    sampleReady "edited/0_edited.png" rfl rfl (by decide) rfl (by decide)
    (by decide) rfl rfl rfl
  exact ⟨rfl, rfl, by decide, rfl, by decide, by rw [h], by rw [h]⟩

/-- C3: the claim says a create whose object writes succeeded but whose
database write failed deterministically deletes every object it wrote.
The generic exception handler of `submit_request` (the branch a
database failure reaches) only logs a cleanup warning — its body is the
comment `# Implement cleanup as above` — so after a valid submission
with both uploads succeeding and the INSERT failing, both freshly
written objects are still in the store and no record exists: two
orphaned objects remain. -/
theorem c3_no_rollback_on_db_failure :
    submit_request { db := [], store := [], nextId := 0 }
        { email := "a@b.com", description := "", image := some "cat.png",
          payment_proof := some "proof.jpg" }
        { upload1Ok := true, upload2Ok := true, dbInsertOk := false } 3
      = (SubmitOutcome.internalFailure,
         { db := [],
           store := ["proof/0_proof.jpg", "original/0_original.png"],
           nextId := 1 }) := by
  rfl

/-- C7: `submit_request` answers with a 400 validation response — and
creates nothing, the whole state coming back unchanged — when the email
is empty, when either file part is absent, or when either filename
fails `allowed_file` (no dot, or a last extension outside
{png, jpg, jpeg, gif, webp} after lower-casing). -/
theorem c7_create_validation (st : SystemState) (form : SubmitForm)
    (eff : SubmitEffects) (now : Nat) :
    (form.email = "" →
       submit_request st form eff now = (SubmitOutcome.emailRequired, st))
    ∧ (form.email ≠ "" → form.image = none →
       submit_request st form eff now = (SubmitOutcome.originalImageRequired, st))
    ∧ (∀ iname, form.email ≠ "" → form.image = some iname →
       form.payment_proof = none →
       submit_request st form eff now = (SubmitOutcome.paymentProofRequired, st))
    ∧ (∀ iname pname, form.email ≠ "" → form.image = some iname →
       form.payment_proof = some pname →
       (allowed_file iname = false ∨ allowed_file pname = false) →
       submit_request st form eff now = (SubmitOutcome.invalidFileType, st)) := by
  refine ⟨?_, ?_, ?_, ?_⟩
  · intro he
    unfold submit_request
    simp [he]
  · intro he hi
    unfold submit_request
    simp [he, hi]
  · intro iname he hi hp
    unfold submit_request
    simp [he, hi, hp]
  · intro iname pname he hi hp hbad
    have hand : (allowed_file iname && allowed_file pname) = false := by
      rcases hbad with hb | hb <;> simp [hb]
    unfold submit_request
    simp [he, hi, hp, hand]

/-- C7, witness: a `.exe` payment proof is rejected as an invalid file
type with the state unchanged. -/
theorem c7_create_validation_witness :
    ("a@b.com" : String) ≠ ""
    ∧ allowed_file "virus.exe" = false
    ∧ submit_request { db := [], store := [], nextId := 0 }
        { email := "a@b.com", description := "", image := some "cat.png",
          payment_proof := some "virus.exe" }
        { upload1Ok := true, upload2Ok := true, dbInsertOk := true } 3
      = (SubmitOutcome.invalidFileType, { db := [], store := [], nextId := 0 }) := by
  refine ⟨by decide, by decide, ?_⟩
  exact (c7_create_validation { db := [], store := [], nextId := 0 }
    { email := "a@b.com", description := "", image := some "cat.png",
      payment_proof := some "virus.exe" }
    { upload1Ok := true, upload2Ok := true, dbInsertOk := true } 3).2.2.2
    "cat.png" "virus.exe" (by decide) rfl rfl (Or.inr (by decide))

/-- C8: under the invariant that every stored id is below the fresh-id
counter, a fully successful valid create returns the fresh id — an id
no existing record carries — and persists a record under that id with
status `pending` and a NULL `edited_image_path`; the invariant is
re-established, so successive creates keep returning ids unique across
calls. -/
theorem c8_create_fresh_pending (st : SystemState) (form : SubmitForm)
    (eff : SubmitEffects) (now : Nat) (iname pname : String)
    (hinv : ∀ r ∈ st.db, r.id < st.nextId)
    (he : form.email ≠ "") (hi : form.image = some iname)
    (hp : form.payment_proof = some pname)
    (hai : allowed_file iname = true) (hap : allowed_file pname = true)
    (h1 : eff.upload1Ok = true) (h2 : eff.upload2Ok = true)
    (h3 : eff.dbInsertOk = true) :
    (submit_request st form eff now).1 = SubmitOutcome.created st.nextId
    ∧ (∀ r ∈ st.db, r.id ≠ st.nextId)
    ∧ (∃ rec, get_request_by_id (submit_request st form eff now).2.db st.nextId
          = some rec
        ∧ rec.id = st.nextId
        ∧ rec.status = Status.pending
        ∧ rec.edited_image_path = none)
    ∧ (∀ r ∈ (submit_request st form eff now).2.db,
        r.id < (submit_request st form eff now).2.nextId) := by
  have hrun : submit_request st form eff now
      = (SubmitOutcome.created st.nextId,
         { db := add_request st.db st.nextId form.email form.description
             ("original/" ++ toString st.nextId ++ "_original."
               ++ strLower (lastExtension iname))
             ("proof/" ++ toString st.nextId ++ "_proof."
               ++ strLower (lastExtension pname)) now,
           store := storePut (storePut st.store
             ("original/" ++ toString st.nextId ++ "_original."
               ++ strLower (lastExtension iname)))
             ("proof/" ++ toString st.nextId ++ "_proof."
               ++ strLower (lastExtension pname)),
           nextId := st.nextId + 1 }) := by
    unfold submit_request
    simp [he, hi, hp, hai, hap, h1, h2, h3]
  refine ⟨by rw [hrun], fun r hr => Nat.ne_of_lt (hinv r hr), ?_, ?_⟩
  · refine ⟨{ id := st.nextId, email := form.email, description := form.description,
              original_image_path := "original/" ++ toString st.nextId
                ++ "_original." ++ strLower (lastExtension iname),
              payment_proof_path := "proof/" ++ toString st.nextId
                ++ "_proof." ++ strLower (lastExtension pname),
              edited_image_path := none, status := Status.pending,
              submitted_at := now, completed_at := none }, ?_, rfl, rfl, rfl⟩
    rw [hrun]
    unfold add_request get_request_by_id
    simp [List.find?]
  · intro r hr
    rw [hrun] at hr ⊢
    unfold add_request at hr
    simp only [List.mem_cons] at hr
    rcases hr with hr | hr
    · subst hr
      exact Nat.lt_succ_self _
    · exact Nat.lt_succ_of_lt (hinv r hr)

/-- C8, witness: a concrete valid create on a one-record state returns
the fresh id 1, not colliding with the stored id 0, and stores a
pending record with no edited image. -/
theorem c8_create_fresh_pending_witness :
    (∀ r ∈ [sampleReady], r.id < 1)
    ∧ (submit_request { db := [sampleReady], store := [], nextId := 1 }
        { email := "c@d.org", description := "hi", image := some "dog.GIF",
          payment_proof := some "pay.webp" }
        { upload1Ok := true, upload2Ok := true, dbInsertOk := true } 4).1
      = SubmitOutcome.created 1
    ∧ (∀ r ∈ [sampleReady], r.id ≠ 1) := by
  have h := c8_create_fresh_pending
    { db := [sampleReady], store := [], nextId := 1 }
    { email := "c@d.org", description := "hi", image := some "dog.GIF",
      payment_proof := some "pay.webp" }
    { upload1Ok := true, upload2Ok := true, dbInsertOk := true } 4
    "dog.GIF" "pay.webp" (by decide) (by decide) rfl rfl (by decide) (by decide)
    rfl rfl rfl
  exact ⟨by decide, h.1, h.2.1⟩

end ImageTrend
